import Mathlib

/-!
Shallow embedding of `src/app/src/main.rs` of picom-xrdesktop-companion.

The app mirrors X11 windows into a VR scene.  Effectful calls (X11 round
trips, GPU operations, compositor IPC) are modelled by environment records
whose fields give each call's reply, and every operation additionally
returns the list of externally observable actions it performed, in order,
as a trace of `Event`s.  Fallible operations return `Except Err`; a Rust
panic (an `unwrap` on an error or on a missing value) is modelled as a
distinguished `Err` constructor, since a panic aborts the task just as an
early `?` return does in this sequential embedding.
-/

/-- Error taxonomy of the embedding.  The `panic…` constructors model Rust
panics (`unwrap` failures) at the corresponding places of `main.rs`. -/
inductive Err where
  | protocol
  | gpu
  | registry
  | parse
  | sceneGraph
  | panicDuplicateWindow
  | panicUntrackedWindow
  | panicUnwrapNone
  deriving DecidableEq, Repr

/-- A GL texture as held by the app: `gl::Texture` carries its width and
height (`main.rs` reads them via `.width()` / `.height()`). -/
structure GlTexture where
  width : Nat
  height : Nat
  deriving DecidableEq, Repr

/-- A gulkan (Vulkan-side) texture with its extent, as allocated by
`gulkan_texture_new_export_fd` in `App::refresh_texture`. -/
structure GulkanTexture where
  width : Nat
  height : Nat
  deriving DecidableEq, Repr

/-- `TextureSet` of `main.rs`: the per-window resource chain
(capture pixmap, capture texture, exported remote texture, imported
texture), fields in the declaration order of the Rust struct. -/
structure TextureSet where
  x11_pixmap : Nat
  x11_texture : GlTexture
  remote_texture : GulkanTexture
  imported_texture : GlTexture
  deriving DecidableEq, Repr

/-- A `GetGeometryReply`: position (i16 values) and size (u16 values). -/
structure Geometry where
  x : Int
  y : Int
  width : Nat
  height : Nat
  deriving DecidableEq, Repr

/-- The slice of `xrd::Window` state the embedding tracks: which remote
texture is currently registered with the scene graph
(`set_and_submit_texture` registers one; `submit_texture` reuses it). -/
structure XrdWindow where
  boundTexture : Option GulkanTexture
  deriving DecidableEq, Repr

/-- `Window` of `main.rs` (the fields the core logic reads: the X11 id,
the damage handle, the optional texture set, the scene-graph window). -/
structure Window where
  id : Nat
  damage : Nat
  textures : Option TextureSet
  xrd_window : XrdWindow
  deriving DecidableEq, Repr

/-- Externally observable actions, used as trace elements. -/
inductive Event where
  | getGeometry (wid : Nat)
  | getAttributes (wid : Nat)
  | namePixmap (wid pixmap : Nat)
  | bindTexture (pixmap visual : Nat)
  | allocateExport (width height : Nat)
  | importFd (width height : Nat)
  | releaseTexture (tex : GlTexture)
  | freePixmap (pixmap : Nat)
  | dropRemote (tex : GulkanTexture)
  | dropImported (tex : GlTexture)
  | blit (src dst : GlTexture)
  | setAndSubmitTexture (tex : GulkanTexture)
  | submitTexture
  | damageSubtract (damage : Nat)
  deriving DecidableEq, Repr

/-- Recognizes the `allocateExport` trace event. -/
def Event.isAlloc : Event → Bool
  | .allocateExport _ _ => true
  | _ => false

/-- Recognizes the `importFd` trace event. -/
def Event.isImport : Event → Bool
  | .importFd _ _ => true
  | _ => false

/-- Recognizes the `bindTexture` trace event. -/
def Event.isBindTex : Event → Bool
  | .bindTexture _ _ => true
  | _ => false

/-- Recognizes the `releaseTexture` trace event (start of a teardown). -/
def Event.isRelease : Event → Bool
  | .releaseTexture _ => true
  | _ => false

/-- `TextureSet::free` of `main.rs`, lines 81–93.  The Rust code, given
`Some` set, explicitly awaits `gl.release_texture(x11_texture)` and then
`free_pixmap(x11_pixmap)`; the two fields not moved out
(`remote_texture`, then `imported_texture`, in declaration order) are
dropped by Rust drop glue when the destructured value goes out of scope,
which releases them after the two explicit calls.  Given `None` it does
nothing.  Modelled from the spec: the drop of the remaining two fields is
a release of those GPU resources — the `Drop` impls live in the absent
`gl` module and the external gulkan binding (a GObject unref).  The two
booleans say whether the two fallible calls succeed. -/
def TextureSet.free (releaseOk freePixmapOk : Bool) :
    Option TextureSet → Except Err Unit × List Event
  | none => (Except.ok (), [])
  | some ts =>
    if releaseOk then
      if freePixmapOk then
        (Except.ok (),
          [Event.releaseTexture ts.x11_texture, Event.freePixmap ts.x11_pixmap,
           Event.dropRemote ts.remote_texture, Event.dropImported ts.imported_texture])
      else
        (Except.error Err.protocol,
          [Event.releaseTexture ts.x11_texture, Event.freePixmap ts.x11_pixmap,
           Event.dropRemote ts.remote_texture, Event.dropImported ts.imported_texture])
    else
      (Except.error Err.gpu,
        [Event.releaseTexture ts.x11_texture,
         Event.dropRemote ts.remote_texture, Event.dropImported ts.imported_texture])

/-- Replies and outcomes of the external calls one `App::refresh_texture`
(and the enclosing `App::render_win`) performs. -/
structure RefreshEnv where
  geomReply : Except Err Geometry
  attrsReply : Except Err Nat
  newPixmap : Nat
  namePixmapOk : Bool
  bindOk : Bool
  importOk : Bool
  releaseOk : Bool
  freePixmapOk : Bool
  blitOk : Bool
  deriving Repr

/-- The bind→allocate→import chain of `App::refresh_texture`
(`main.rs` lines 209–254), entered when `w.textures` is `None`:
fetch window attributes, name a composite pixmap for the window, bind it
to a GL texture, allocate the exported gulkan texture at the fetched
geometry's extent, and import its fd as a GL texture; on success store
the four resources and report `true`.  Modelled from the spec: the
`gl` module is absent from the sources, so `gl.bind_texture` is taken to
return a texture over the capture pixmap carrying the window's captured
dimensions, and `gl.import_fd w h …` a texture of exactly the requested
dimensions (§4.2: "imports the exported memory … as a texture of
matching dimensions"). -/
def App.alloc_chain (env : RefreshEnv) (geom : Geometry) (w : Window) :
    Except Err Bool × Window × List Event :=
  match env.attrsReply with
  | Except.error e => (Except.error e, w, [Event.getAttributes w.id])
  | Except.ok visual =>
    let p := env.newPixmap
    if env.namePixmapOk then
      if env.bindOk then
        if env.importOk then
          let ts : TextureSet :=
            ⟨p, ⟨geom.width, geom.height⟩, ⟨geom.width, geom.height⟩,
             ⟨geom.width, geom.height⟩⟩
          (Except.ok true, {w with textures := some ts},
           [Event.getAttributes w.id, Event.namePixmap w.id p, Event.bindTexture p visual,
            Event.allocateExport geom.width geom.height,
            Event.importFd geom.width geom.height])
        else
          (Except.error Err.gpu, w,
           [Event.getAttributes w.id, Event.namePixmap w.id p, Event.bindTexture p visual,
            Event.allocateExport geom.width geom.height,
            Event.importFd geom.width geom.height,
            Event.dropRemote ⟨geom.width, geom.height⟩])
      else
        (Except.error Err.gpu, w,
         [Event.getAttributes w.id, Event.namePixmap w.id p, Event.bindTexture p visual])
    else
      (Except.error Err.protocol, w,
       [Event.getAttributes w.id, Event.namePixmap w.id p])

/-- `App::refresh_texture` (`main.rs` lines 192–258): fetch the window's
current geometry; if a texture set exists whose capture texture's
dimensions differ from the fetched geometry, free the old set first
(`w.textures.take()` leaves `None` even if freeing fails); then, if no
texture set is present, run the bind→allocate→import chain and return
`true`, else return `false`.  Returns the result, the updated window
(the Rust code mutates `w` in place), and the trace. -/
def App.refresh_texture (env : RefreshEnv) (w : Window) :
    Except Err Bool × Window × List Event :=
  match env.geomReply with
  | Except.error e => (Except.error e, w, [Event.getGeometry w.id])
  | Except.ok geom =>
    match w.textures with
    | some ts =>
      if ts.x11_texture.width != geom.width || ts.x11_texture.height != geom.height then
        match TextureSet.free env.releaseOk env.freePixmapOk (some ts) with
        | (Except.error e, trF) =>
          (Except.error e, {w with textures := none}, Event.getGeometry w.id :: trF)
        | (Except.ok _, trF) =>
          match App.alloc_chain env geom {w with textures := none} with
          | (res, w', trC) => (res, w', Event.getGeometry w.id :: (trF ++ trC))
      else
        (Except.ok false, w, [Event.getGeometry w.id])
    | none =>
      match App.alloc_chain env geom w with
      | (res, w', trC) => (res, w', Event.getGeometry w.id :: trC)

/-- `App::render_win` (`main.rs` lines 260–287): refresh the texture set,
`unwrap` it (panic if absent), blit the capture texture into the imported
texture, then either `set_and_submit_texture` the remote texture (when
refresh reported `true`) or `submit_texture` the already-registered one
(when it reported `false`). -/
def App.render_win (env : RefreshEnv) (w : Window) :
    Except Err Unit × Window × List Event :=
  match App.refresh_texture env w with
  | (Except.error e, w', tr) => (Except.error e, w', tr)
  | (Except.ok refreshed, w', tr) =>
    match w'.textures with
    | none => (Except.error Err.panicUnwrapNone, w', tr)
    | some ts =>
      let tr := tr ++ [Event.blit ts.x11_texture ts.imported_texture]
      if env.blitOk then
        if refreshed then
          (Except.ok (),
           {w' with xrd_window := ⟨some ts.remote_texture⟩},
           tr ++ [Event.setAndSubmitTexture ts.remote_texture])
        else
          (Except.ok (), w', tr ++ [Event.submitTexture])
      else
        (Except.error Err.gpu, w', tr)

/-- The window registry (`WindowMap` of `main.rs`, a `HashMap<u32, Window>`),
modelled as an association list keyed by the X11 window id. -/
abbrev Registry := List (Nat × Window)

/-- Lookup in the registry (first match). -/
def Registry.lookup : Registry → Nat → Option Window
  | [], _ => none
  | (k, w) :: rest, wid => if k = wid then some w else Registry.lookup rest wid

/-- Insertion into the registry (used only on a key not present). -/
def Registry.insert (r : Registry) (wid : Nat) (w : Window) : Registry :=
  r ++ [(wid, w)]

/-- Replace the entry for a key (in-place mutation through `get_mut`). -/
def Registry.update : Registry → Nat → Window → Registry
  | [], _, _ => []
  | (k, w) :: rest, wid, w' =>
    if k = wid then (k, w') :: rest else (k, w) :: Registry.update rest wid w'

/-- The i16 value a u16 quantity denotes after Rust's `as i16` cast. -/
def asI16 (n : Nat) : Int := ((n : Int) + 32768) % 65536 - 32768

/-- The off-screen test of `App::map_win` (`main.rs` lines 314–318):
`x <= -(width as i16) || y <= -(height as i16) || x >= root.width as i16
|| y >= root.height as i16` — the window is entirely outside the root
window's bounds, inclusively at the edges. -/
def App.winOutside (wg rg : Geometry) : Bool :=
  decide (wg.x ≤ -(asI16 wg.width)) || decide (wg.y ≤ -(asI16 wg.height)) ||
  decide (asI16 rg.width ≤ wg.x) || decide (asI16 rg.height ≤ wg.y)

/-- Replies and outcomes of the external calls one `App::map_win`
performs: the picom proxy's `mapped`, `type` and `name` properties, the
window-id parse, the root and window geometry fetches, the xrd window
creation, the damage registration, and the environment of the initial
render pass. -/
structure MapEnv where
  mappedReply : Except Err Bool
  typeReply : Except Err String
  parseReply : Except Err Nat
  rootGeomReply : Except Err Geometry
  winGeomReply : Except Err Geometry
  nameReply : Except Err String
  xrdWindowOk : Bool
  damageId : Nat
  damageCreateOk : Bool
  renderEnv : RefreshEnv
  deriving Repr

/-- `App::map_win` (`main.rs` lines 289–384): query the compositor for
the window's metadata, returning `Ok(())` without touching the registry
when the window is unmapped, of non-"normal" type, or entirely outside
the root bounds; otherwise fetch the name, create the xrd window,
register damage, insert a fresh `Window` (no texture set yet) into the
registry — `try_insert(..).unwrap()` panics if the id is already
present — and run an initial render pass on the inserted entry. -/
def App.map_win (env : MapEnv) (reg : Registry) : Except Err Unit × Registry :=
  match env.mappedReply with
  | Except.error e => (Except.error e, reg)
  | Except.ok mapped =>
    if !mapped then (Except.ok (), reg)
    else match env.typeReply with
    | Except.error e => (Except.error e, reg)
    | Except.ok ty =>
      if ty != "normal" then (Except.ok (), reg)
      else match env.parseReply with
      | Except.error e => (Except.error e, reg)
      | Except.ok wid =>
        match env.rootGeomReply with
        | Except.error e => (Except.error e, reg)
        | Except.ok rootG =>
          match env.winGeomReply with
          | Except.error e => (Except.error e, reg)
          | Except.ok winG =>
            if App.winOutside winG rootG then (Except.ok (), reg)
            else match env.nameReply with
            | Except.error e => (Except.error e, reg)
            | Except.ok _ =>
              if !env.xrdWindowOk then (Except.error Err.sceneGraph, reg)
              else if !env.damageCreateOk then (Except.error Err.protocol, reg)
              else match Registry.lookup reg wid with
              | some _ => (Except.error Err.panicDuplicateWindow, reg)
              | none =>
                let w0 : Window := ⟨wid, env.damageId, none, ⟨none⟩⟩
                match App.render_win env.renderEnv w0 with
                | (res, w1, _) =>
                  match res with
                  | Except.ok _ => (Except.ok (), Registry.insert reg wid w1)
                  | Except.error e => (Except.error e, Registry.insert reg wid w1)

/-- `App::setup_initial_windows` (`main.rs` lines 386–400): enumerate the
compositor's window objects and call `map_win` for each; the `?` on
`self.map_win(..)` propagates the first error out of the loop. -/
def App.setup_initial_windows : List MapEnv → Registry → Except Err Unit × Registry
  | [], reg => (Except.ok (), reg)
  | c :: rest, reg =>
    match App.map_win c reg with
    | (Except.ok _, reg') => App.setup_initial_windows rest reg'
    | (Except.error e, reg') => (Except.error e, reg')

/-- Events delivered by `wait_for_event` as matched in `App::run`. -/
inductive XEvent where
  | damageNotify (drawable : Nat)
  | other
  deriving DecidableEq, Repr

/-- Per-event external outcomes in `App::run`: whether the
`damage_subtract` round trip succeeds, and the environment of the
event's render pass. -/
structure LoopEnv where
  subtractOk : Bool
  renderEnv : RefreshEnv
  deriving Repr

/-- One iteration of the `App::run` match (`main.rs` lines 170–187): a
`DamageNotify` looks the window up (`get_mut(..).unwrap()` panics when it
is untracked), awaits `damage_subtract` on the window's damage handle,
then awaits `render_win`; every other event does nothing. -/
def App.handle_event (env : LoopEnv) (reg : Registry) :
    XEvent → Except Err Registry × List Event
  | XEvent.other => (Except.ok reg, [])
  | XEvent.damageNotify d =>
    match Registry.lookup reg d with
    | none => (Except.error Err.panicUntrackedWindow, [])
    | some w =>
      if env.subtractOk then
        match App.render_win env.renderEnv w with
        | (res, w', tr) =>
          match res with
          | Except.ok _ =>
            (Except.ok (Registry.update reg d w'), Event.damageSubtract w.damage :: tr)
          | Except.error e =>
            (Except.error e, Event.damageSubtract w.damage :: tr)
      else (Except.error Err.protocol, [Event.damageSubtract w.damage])

/-- The event loop of `App::run` over a finite schedule of delivered
events: events are handled one at a time in delivery order; the first
error (or panic) terminates the loop.  Returns the final result and, for
each event actually processed, that event paired with its trace. -/
def App.run_events : List (XEvent × LoopEnv) → Registry →
    Except Err Registry × List (XEvent × List Event)
  | [], reg => (Except.ok reg, [])
  | (ev, env) :: rest, reg =>
    match App.handle_event env reg ev with
    | (Except.ok reg', tr) =>
      match App.run_events rest reg' with
      | (res, trs) => (res, (ev, tr) :: trs)
    | (Except.error e, tr) => (Except.error e, [(ev, tr)])

/-- The refresh condition in the spec's words: the texture set is absent,
or the set's capture-texture dimensions differ from the freshly fetched
geometry.  Stated separately from `App.refresh_texture` so the code's
return value can be compared against it. -/
def needsRefresh (w : Window) (g : Geometry) : Bool :=
  match w.textures with
  | none => true
  | some ts => ts.x11_texture.width != g.width || ts.x11_texture.height != g.height

/-- All members of a texture set carry identical width and height. -/
def TextureSet.uniform (ts : TextureSet) : Prop :=
  ts.x11_texture.width = ts.remote_texture.width ∧
  ts.x11_texture.height = ts.remote_texture.height ∧
  ts.x11_texture.width = ts.imported_texture.width ∧
  ts.x11_texture.height = ts.imported_texture.height

/-- A `MapEnv` whose metadata admits the window: every reply succeeds,
the window is mapped, of "normal" type, parses to `wid`, and lies at
least partly inside the root bounds. -/
def MapEnv.admits (env : MapEnv) (wid : Nat) : Prop :=
  env.mappedReply = Except.ok true ∧ env.typeReply = Except.ok "normal" ∧
  env.parseReply = Except.ok wid ∧
  (∃ rg wg, env.rootGeomReply = Except.ok rg ∧ env.winGeomReply = Except.ok wg ∧
    App.winOutside wg rg = false) ∧
  (∃ s, env.nameReply = Except.ok s) ∧
  env.xrdWindowOk = true ∧ env.damageCreateOk = true

/-- A `RefreshEnv` in which every external call succeeds. -/
def RefreshEnv.allOk (env : RefreshEnv) : Prop :=
  (∃ g, env.geomReply = Except.ok g) ∧ (∃ v, env.attrsReply = Except.ok v) ∧
  env.namePixmapOk = true ∧ env.bindOk = true ∧ env.importOk = true ∧
  env.releaseOk = true ∧ env.freePixmapOk = true ∧ env.blitOk = true

/-- Sample refresh environment: a 300×200 window, all calls succeed. -/
def envA : RefreshEnv :=
  ⟨Except.ok ⟨0, 0, 300, 200⟩, Except.ok 1, 2, true, true, true, true, true, true⟩

/-- Sample refresh environment reporting new geometry 400×200. -/
def envResize : RefreshEnv :=
  ⟨Except.ok ⟨0, 0, 400, 200⟩, Except.ok 1, 3, true, true, true, true, true, true⟩

/-- Sample window with no texture set yet. -/
def winA : Window := ⟨1, 11, none, ⟨none⟩⟩

/-- Sample texture set, all members 300×200. -/
def tsA : TextureSet := ⟨2, ⟨300, 200⟩, ⟨300, 200⟩, ⟨300, 200⟩⟩

/-- Sample window holding `tsA`. -/
def winB : Window := ⟨1, 11, some tsA, ⟨none⟩⟩

/-- Sample tracked window with id 5. -/
def win5 : Window := ⟨5, 11, none, ⟨none⟩⟩

/-- Sample map environment: a mapped, normal window at (100,100) sized
300×200 on a 1920×1080 root; every call succeeds. -/
def mapEnvA : MapEnv :=
  ⟨Except.ok true, Except.ok "normal", Except.ok 7, Except.ok ⟨0, 0, 1920, 1080⟩,
   Except.ok ⟨100, 100, 300, 200⟩, Except.ok "title", true, 3, true, envA⟩

/-- Sample map environment: a mapped, normal window at x = −50 of width
40, entirely left of a 1920×1080 root. -/
def mapEnvOut : MapEnv :=
  ⟨Except.ok true, Except.ok "normal", Except.ok 7, Except.ok ⟨0, 0, 1920, 1080⟩,
   Except.ok ⟨-50, 10, 40, 40⟩, Except.ok "title", true, 3, true, envA⟩

/-- Sample map environment whose compositor IPC fails on the `mapped`
property fetch. -/
def mapEnvBad : MapEnv :=
  ⟨Except.error Err.registry, Except.ok "normal", Except.ok 9,
   Except.ok ⟨0, 0, 1920, 1080⟩, Except.ok ⟨100, 100, 300, 200⟩,
   Except.ok "title", true, 4, true, envA⟩

/-- Sample loop environment: damage subtract succeeds, render uses `envA`. -/
def loopEnvA : LoopEnv := ⟨true, envA⟩

theorem App.alloc_chain_ok_result (env : RefreshEnv) (geom : Geometry) (w : Window)
    (b : Bool) (w' : Window) (tr : List Event)
    (h : App.alloc_chain env geom w = (Except.ok b, w', tr)) :
    b = true ∧ w'.textures = some ⟨env.newPixmap, ⟨geom.width, geom.height⟩,
      ⟨geom.width, geom.height⟩, ⟨geom.width, geom.height⟩⟩ := by
  unfold App.alloc_chain at h
  cases ha : env.attrsReply with
  | error e => rw [ha] at h; simp at h
  | ok v =>
    rw [ha] at h
    cases hn : env.namePixmapOk <;> simp [hn] at h
    cases hb : env.bindOk <;> simp [hb] at h
    cases hi : env.importOk <;> simp [hi] at h
    obtain ⟨h1, h2, h3⟩ := h
    refine ⟨h1, ?_⟩
    rw [← h2]

theorem App.refresh_texture_absent_eq (g : Geometry) (v : Nat) (f3 : Nat)
    (f7 f8 f9 : Bool) (wid dmg : Nat) (wxrd : XrdWindow) :
    App.refresh_texture ⟨Except.ok g, Except.ok v, f3, true, true, true, f7, f8, f9⟩
        ⟨wid, dmg, none, wxrd⟩ =
      (Except.ok true,
       ⟨wid, dmg, some ⟨f3, ⟨g.width, g.height⟩, ⟨g.width, g.height⟩,
         ⟨g.width, g.height⟩⟩, wxrd⟩,
       [Event.getGeometry wid, Event.getAttributes wid, Event.namePixmap wid f3,
        Event.bindTexture f3 v, Event.allocateExport g.width g.height,
        Event.importFd g.width g.height]) := rfl

theorem App.refresh_texture_mismatch_eq (g : Geometry) (v : Nat) (f3 : Nat)
    (f9 : Bool) (wid dmg : Nat) (ts : TextureSet) (wxrd : XrdWindow)
    (hmis : (ts.x11_texture.width != g.width || ts.x11_texture.height != g.height) = true) :
    App.refresh_texture ⟨Except.ok g, Except.ok v, f3, true, true, true, true, true, f9⟩
        ⟨wid, dmg, some ts, wxrd⟩ =
      (Except.ok true,
       ⟨wid, dmg, some ⟨f3, ⟨g.width, g.height⟩, ⟨g.width, g.height⟩,
         ⟨g.width, g.height⟩⟩, wxrd⟩,
       [Event.getGeometry wid, Event.releaseTexture ts.x11_texture,
        Event.freePixmap ts.x11_pixmap, Event.dropRemote ts.remote_texture,
        Event.dropImported ts.imported_texture, Event.getAttributes wid,
        Event.namePixmap wid f3, Event.bindTexture f3 v,
        Event.allocateExport g.width g.height, Event.importFd g.width g.height]) := by
  unfold App.refresh_texture
  simp [hmis, TextureSet.free, App.alloc_chain]

theorem App.refresh_texture_matching_eq (g : Geometry) (f2 : Except Err Nat)
    (f3 : Nat) (f4 f5 f6 f7 f8 f9 : Bool) (wid dmg : Nat) (ts : TextureSet)
    (wxrd : XrdWindow)
    (hmis : (ts.x11_texture.width != g.width || ts.x11_texture.height != g.height) = false) :
    App.refresh_texture ⟨Except.ok g, f2, f3, f4, f5, f6, f7, f8, f9⟩
        ⟨wid, dmg, some ts, wxrd⟩ =
      (Except.ok false, ⟨wid, dmg, some ts, wxrd⟩, [Event.getGeometry wid]) := by
  unfold App.refresh_texture
  simp [hmis]

/-- C2: `TextureSet::free` with a texture set present (and both external
calls succeeding) releases, in order, the capture texture, the capture
surface pixmap, the remote (exported) texture and the imported texture,
and is a successful no-op when no texture set is present. -/
theorem TextureSet.free_releases_in_order :
    (∀ releaseOk freePixmapOk : Bool,
      TextureSet.free releaseOk freePixmapOk none = (Except.ok (), [])) ∧
    (∀ ts : TextureSet, TextureSet.free true true (some ts) =
      (Except.ok (),
        [Event.releaseTexture ts.x11_texture, Event.freePixmap ts.x11_pixmap,
         Event.dropRemote ts.remote_texture, Event.dropImported ts.imported_texture])) := by
  exact ⟨fun _ _ => rfl, fun _ => rfl⟩

/-- C10: whenever `App::refresh_texture` returns successfully (with
either `true` or `false`), the window's texture set is present, so the
`unwrap` that `App::render_win` performs right after a successful
refresh never panics: `render_win` never fails with the modelled
unwrap-panic error once its refresh has succeeded. -/
theorem App.refresh_ok_textures_some :
    (∀ env w b w' tr, App.refresh_texture env w = (Except.ok b, w', tr) →
      (w'.textures).isSome = true) ∧
    (∀ env w b w' tr, App.refresh_texture env w = (Except.ok b, w', tr) →
      (App.render_win env w).1 ≠ Except.error Err.panicUnwrapNone) := by
  have key : ∀ env w b w' tr, App.refresh_texture env w = (Except.ok b, w', tr) →
      (w'.textures).isSome = true := by
    intro env w b w' tr h
    unfold App.refresh_texture at h
    cases hg : env.geomReply with
    | error e => rw [hg] at h; simp at h
    | ok g =>
      rw [hg] at h
      dsimp only at h
      cases hw : w.textures with
      | none =>
        rw [hw] at h
        dsimp only at h
        cases hc : App.alloc_chain env g w with
        | mk res rest =>
          obtain ⟨w2, trC⟩ := rest
          rw [hc] at h
          dsimp only at h
          injection h with h1 h'
          injection h' with h2 h3
          subst h1
          rw [← h2]
          obtain ⟨-, hts⟩ := App.alloc_chain_ok_result env g w b w2 trC hc
          rw [hts]
          rfl
      | some ts =>
        rw [hw] at h
        dsimp only at h
        by_cases hmis :
            (ts.x11_texture.width != g.width || ts.x11_texture.height != g.height) = true
        · simp only [hmis, if_true] at h
          cases hf : TextureSet.free env.releaseOk env.freePixmapOk (some ts) with
          | mk fres ftr =>
            rw [hf] at h
            cases fres with
            | error e => simp at h
            | ok u =>
              dsimp only at h
              cases hc : App.alloc_chain env g {w with textures := none} with
              | mk res rest =>
                obtain ⟨w2, trC⟩ := rest
                rw [hc] at h
                dsimp only at h
                injection h with h1 h'
                injection h' with h2 h3
                subst h1
                rw [← h2]
                obtain ⟨-, hts⟩ :=
                  App.alloc_chain_ok_result env g {w with textures := none} b w2 trC hc
                rw [hts]
                rfl
        · simp only [hmis, if_false] at h
          injection h with h1 h'
          injection h' with h2 h3
          subst h2
          rw [hw]
          rfl
  refine ⟨key, ?_⟩
  intro env w b w' tr h hren
  unfold App.render_win at hren
  rw [h] at hren
  dsimp only at hren
  have hsome := key env w b w' tr h
  cases hts : w'.textures with
  | none => rw [hts] at hsome; simp at hsome
  | some ts =>
    rw [hts] at hren
    dsimp only at hren
    cases hbl : env.blitOk <;> simp only [hbl] at hren
    · simp at hren
    · cases b <;> simp at hren


/-- Witness for C10: at `envA` and the fresh window `winA`, a successful
refresh leaves a texture set in place. -/
theorem App.refresh_ok_textures_some_witness :
    (((App.refresh_texture envA winA).2.1).textures).isSome = true :=
  App.refresh_ok_textures_some.1 envA winA true
    ((App.refresh_texture envA winA).2.1) ((App.refresh_texture envA winA).2.2) rfl

/-- C1: with every external call succeeding, `App::refresh_texture`
returns `true` exactly when the texture set was absent or present with
dimensions different from the freshly fetched geometry (tearing the old
set down first in the latter case, before the bind→allocate→import
chain); when the set is present with matching dimensions it returns
`false`, leaves the window unchanged, only fetched the geometry, and
performed no bind, allocation or import. -/
theorem App.refresh_texture_refreshed_iff (env : RefreshEnv) (w : Window)
    (g : Geometry) (v : Nat)
    (hg : env.geomReply = Except.ok g) (ha : env.attrsReply = Except.ok v)
    (hnp : env.namePixmapOk = true) (hb : env.bindOk = true)
    (hi : env.importOk = true) (hrel : env.releaseOk = true)
    (hfp : env.freePixmapOk = true) :
    ∃ w' tr, App.refresh_texture env w = (Except.ok (needsRefresh w g), w', tr) ∧
      (needsRefresh w g = false → w' = w ∧ tr = [Event.getGeometry w.id]) ∧
      (needsRefresh w g = true →
        tr.countP Event.isBindTex = 1 ∧ tr.countP Event.isAlloc = 1 ∧
        tr.countP Event.isImport = 1) ∧
      (needsRefresh w g = false →
        tr.countP Event.isBindTex = 0 ∧ tr.countP Event.isAlloc = 0 ∧
        tr.countP Event.isImport = 0) ∧
      (∀ ts, w.textures = some ts → needsRefresh w g = true →
        ∃ trC, tr = Event.getGeometry w.id :: Event.releaseTexture ts.x11_texture ::
          Event.freePixmap ts.x11_pixmap :: Event.dropRemote ts.remote_texture ::
          Event.dropImported ts.imported_texture :: trC) := by
  obtain ⟨f1, f2, f3, f4, f5, f6, f7, f8, f9⟩ := env
  obtain ⟨wid, dmg, wtex, wxrd⟩ := w
  dsimp only at hg ha hnp hb hi hrel hfp
  subst hg ha hnp hb hi hrel hfp
  cases wtex with
  | none =>
    refine ⟨_, _, App.refresh_texture_absent_eq g v f3 true true f9 wid dmg wxrd,
      ?_, ?_, ?_, ?_⟩
    · intro hfalse; simp [needsRefresh] at hfalse
    · intro _; exact ⟨rfl, rfl, rfl⟩
    · intro hfalse; simp [needsRefresh] at hfalse
    · intro ts hcontra _; cases hcontra
  | some ts =>
    cases hmis : (ts.x11_texture.width != g.width || ts.x11_texture.height != g.height) with
    | true =>
      have hnr : needsRefresh ⟨wid, dmg, some ts, wxrd⟩ g = true := by
        simpa [needsRefresh] using hmis
      rw [hnr]
      refine ⟨_, _, App.refresh_texture_mismatch_eq g v f3 f9 wid dmg ts wxrd hmis,
        ?_, ?_, ?_, ?_⟩
      · intro hc; exact absurd hc (by simp)
      · intro _; exact ⟨rfl, rfl, rfl⟩
      · intro hc; exact absurd hc (by simp)
      · intro ts' hts' _
        injection hts' with hts''
        subst hts''
        exact ⟨_, rfl⟩
    | false =>
      have hnr : needsRefresh ⟨wid, dmg, some ts, wxrd⟩ g = false := by
        simpa [needsRefresh] using hmis
      rw [hnr]
      refine ⟨_, _,
        App.refresh_texture_matching_eq g (Except.ok v) f3 true true true true true f9
          wid dmg ts wxrd hmis, ?_, ?_, ?_, ?_⟩
      · intro _; exact ⟨rfl, rfl⟩
      · intro hc; exact absurd hc (by simp)
      · intro _; exact ⟨rfl, rfl, rfl⟩
      · intro ts' _ hc; exact absurd hc (by simp)

/-- Witness for C1: at `envA` (geometry 300×200) and `winB` (texture set
present, 300×200), refresh returns `false` and allocates nothing. -/
theorem App.refresh_texture_refreshed_iff_witness :
    ∃ w' tr, App.refresh_texture envA winB =
        (Except.ok (needsRefresh winB ⟨0, 0, 300, 200⟩), w', tr) ∧
      (needsRefresh winB ⟨0, 0, 300, 200⟩ = false →
        w' = winB ∧ tr = [Event.getGeometry winB.id]) ∧
      (needsRefresh winB ⟨0, 0, 300, 200⟩ = true →
        tr.countP Event.isBindTex = 1 ∧ tr.countP Event.isAlloc = 1 ∧
        tr.countP Event.isImport = 1) ∧
      (needsRefresh winB ⟨0, 0, 300, 200⟩ = false →
        tr.countP Event.isBindTex = 0 ∧ tr.countP Event.isAlloc = 0 ∧
        tr.countP Event.isImport = 0) ∧
      (∀ ts, winB.textures = some ts → needsRefresh winB ⟨0, 0, 300, 200⟩ = true →
        ∃ trC, tr = Event.getGeometry winB.id :: Event.releaseTexture ts.x11_texture ::
          Event.freePixmap ts.x11_pixmap :: Event.dropRemote ts.remote_texture ::
          Event.dropImported ts.imported_texture :: trC) :=
  App.refresh_texture_refreshed_iff envA winB ⟨0, 0, 300, 200⟩ 1
    rfl rfl rfl rfl rfl rfl rfl

/-- C3: the texture sets `App::refresh_texture` leaves behind always have
all members at identical dimensions (assuming the incoming set, if any,
was uniform), and a window whose set mismatches the fetched geometry
undergoes exactly one teardown of the whole old set followed by exactly
one full bind→allocate→import cycle, the new set carrying the new
dimensions on every member. -/
theorem App.refresh_texture_uniform_dims :
    (∀ env w b w' tr ts', (∀ ts, w.textures = some ts → ts.uniform) →
      App.refresh_texture env w = (Except.ok b, w', tr) →
      w'.textures = some ts' → ts'.uniform) ∧
    (∀ env w g v ts, env.geomReply = Except.ok g → env.attrsReply = Except.ok v →
      env.namePixmapOk = true → env.bindOk = true → env.importOk = true →
      env.releaseOk = true → env.freePixmapOk = true →
      w.textures = some ts →
      (ts.x11_texture.width != g.width || ts.x11_texture.height != g.height) = true →
      App.refresh_texture env w =
        (Except.ok true,
         {w with textures := some ⟨env.newPixmap, ⟨g.width, g.height⟩,
           ⟨g.width, g.height⟩, ⟨g.width, g.height⟩⟩},
         [Event.getGeometry w.id, Event.releaseTexture ts.x11_texture,
          Event.freePixmap ts.x11_pixmap, Event.dropRemote ts.remote_texture,
          Event.dropImported ts.imported_texture, Event.getAttributes w.id,
          Event.namePixmap w.id env.newPixmap, Event.bindTexture env.newPixmap v,
          Event.allocateExport g.width g.height, Event.importFd g.width g.height])) := by
  constructor
  · intro env w b w' tr ts' huni h hts'
    unfold App.refresh_texture at h
    cases hg : env.geomReply with
    | error e => rw [hg] at h; simp at h
    | ok g =>
      rw [hg] at h
      dsimp only at h
      cases hw : w.textures with
      | none =>
        rw [hw] at h
        dsimp only at h
        cases hc : App.alloc_chain env g w with
        | mk res rest =>
          obtain ⟨w2, trC⟩ := rest
          rw [hc] at h
          dsimp only at h
          injection h with h1 h'
          injection h' with h2 h3
          subst h1
          rw [← h2] at hts'
          obtain ⟨-, hts⟩ := App.alloc_chain_ok_result env g w b w2 trC hc
          rw [hts] at hts'
          injection hts' with he
          subst he
          exact ⟨rfl, rfl, rfl, rfl⟩
      | some ts =>
        rw [hw] at h
        dsimp only at h
        by_cases hmis :
            (ts.x11_texture.width != g.width || ts.x11_texture.height != g.height) = true
        · simp only [hmis, if_true] at h
          cases hf : TextureSet.free env.releaseOk env.freePixmapOk (some ts) with
          | mk fres ftr =>
            rw [hf] at h
            cases fres with
            | error e => simp at h
            | ok u =>
              dsimp only at h
              cases hc : App.alloc_chain env g {w with textures := none} with
              | mk res rest =>
                obtain ⟨w2, trC⟩ := rest
                rw [hc] at h
                dsimp only at h
                injection h with h1 h'
                injection h' with h2 h3
                subst h1
                rw [← h2] at hts'
                obtain ⟨-, hts⟩ :=
                  App.alloc_chain_ok_result env g {w with textures := none} b w2 trC hc
                rw [hts] at hts'
                injection hts' with he
                subst he
                exact ⟨rfl, rfl, rfl, rfl⟩
        · simp only [hmis, if_false] at h
          injection h with h1 h'
          injection h' with h2 h3
          rw [← h2] at hts'
          rw [hw] at hts'
          injection hts' with he
          subst he
          exact huni ts hw
  · intro env w g v ts hg ha hnp hb hi hrel hfp hw hmis
    obtain ⟨f1, f2, f3, f4, f5, f6, f7, f8, f9⟩ := env
    obtain ⟨wid, dmg, wtex, wxrd⟩ := w
    dsimp only at hg ha hnp hb hi hrel hfp hw ⊢
    subst hg ha hnp hb hi hrel hfp hw
    exact App.refresh_texture_mismatch_eq g v f3 f9 wid dmg ts wxrd hmis

/-- Witness for C3: `winB` (300×200 set) refreshed under `envResize`
(geometry 400×200) is torn down once and rebuilt once at 400×200. -/
theorem App.refresh_texture_uniform_dims_witness :
    App.refresh_texture envResize winB =
      (Except.ok true,
       {winB with textures := some ⟨3, ⟨400, 200⟩, ⟨400, 200⟩, ⟨400, 200⟩⟩},
       [Event.getGeometry 1, Event.releaseTexture ⟨300, 200⟩, Event.freePixmap 2,
        Event.dropRemote ⟨300, 200⟩, Event.dropImported ⟨300, 200⟩,
        Event.getAttributes 1, Event.namePixmap 1 3, Event.bindTexture 3 1,
        Event.allocateExport 400 200, Event.importFd 400 200]) :=
  App.refresh_texture_uniform_dims.2 envResize winB ⟨0, 0, 400, 200⟩ 1 tsA
    rfl rfl rfl rfl rfl rfl rfl rfl (by decide)

/-- C4: a successful `App::render_win` first runs `refresh_texture`, then
blits the capture texture into the imported texture, and finally either
registers-and-submits the new remote texture (when refresh returned
`true`) or re-submits the previously registered texture unchanged (when
refresh returned `false`). -/
theorem App.render_win_structure (env : RefreshEnv) (w : Window) (u : Unit)
    (w'' : Window) (tr : List Event)
    (h : App.render_win env w = (Except.ok u, w'', tr)) :
    ∃ b w' trR ts, App.refresh_texture env w = (Except.ok b, w', trR) ∧
      w'.textures = some ts ∧
      tr = trR ++ [Event.blit ts.x11_texture ts.imported_texture] ++
        [if b then Event.setAndSubmitTexture ts.remote_texture else Event.submitTexture] ∧
      (b = true → w'' = {w' with xrd_window := ⟨some ts.remote_texture⟩}) ∧
      (b = false → w'' = w') := by
  unfold App.render_win at h
  cases hr : App.refresh_texture env w with
  | mk res rest =>
    obtain ⟨w1, tr1⟩ := rest
    rw [hr] at h
    dsimp only at h
    cases res with
    | error e => simp at h
    | ok b =>
      dsimp only at h
      cases hts : w1.textures with
      | none => rw [hts] at h; simp at h
      | some ts =>
        rw [hts] at h
        dsimp only at h
        cases hbl : env.blitOk with
        | false =>
          rw [if_neg (by rw [hbl]; exact Bool.false_ne_true)] at h
          simp at h
        | true =>
          rw [if_pos hbl] at h
          cases b with
          | true =>
            rw [if_pos rfl] at h
            injection h with h1 h'
            injection h' with h2 h3
            refine ⟨true, w1, tr1, ts, rfl, hts, ?_, ?_, ?_⟩
            · rw [← h3]; simp
            · intro _; rw [← h2, hts]
            · intro hc; cases hc
          | false =>
            rw [if_neg Bool.false_ne_true] at h
            injection h with h1 h'
            injection h' with h2 h3
            refine ⟨false, w1, tr1, ts, rfl, hts, ?_, ?_, ?_⟩
            · rw [← h3]; simp
            · intro hc; cases hc
            · intro _; exact h2.symm

/-- Witness for C4 at `envA` and the fresh window `winA`. -/
theorem App.render_win_structure_witness :
    ∃ b w' trR ts, App.refresh_texture envA winA = (Except.ok b, w', trR) ∧
      w'.textures = some ts ∧
      (App.render_win envA winA).2.2 =
        trR ++ [Event.blit ts.x11_texture ts.imported_texture] ++
        [if b then Event.setAndSubmitTexture ts.remote_texture else Event.submitTexture] ∧
      (b = true → (App.render_win envA winA).2.1 =
        {w' with xrd_window := ⟨some ts.remote_texture⟩}) ∧
      (b = false → (App.render_win envA winA).2.1 = w') :=
  App.render_win_structure envA winA () ((App.render_win envA winA).2.1)
    ((App.render_win envA winA).2.2) rfl

theorem asI16_le (n : Nat) : asI16 n ≤ (n : Int) := by
  unfold asI16
  omega

/-- C5: `App::map_win` is a successful no-op that never touches the
registry when the compositor reports the window unmapped, or of a type
other than "normal", or when its geometry places it entirely outside the
root bounds (inclusive edge check). -/
theorem App.map_win_ignores_filtered (env : MapEnv) (reg : Registry)
    (m : Bool) (t : String) (wid : Nat) (rg wg : Geometry)
    (hm : env.mappedReply = Except.ok m) (ht : env.typeReply = Except.ok t)
    (hp : env.parseReply = Except.ok wid)
    (hr : env.rootGeomReply = Except.ok rg) (hw : env.winGeomReply = Except.ok wg)
    (hcond : m = false ∨ t ≠ "normal" ∨
      (wg.x + (wg.width : Int) ≤ 0 ∨ wg.y + (wg.height : Int) ≤ 0 ∨
       (rg.width : Int) ≤ wg.x ∨ (rg.height : Int) ≤ wg.y)) :
    App.map_win env reg = (Except.ok (), reg) := by
  unfold App.map_win
  rw [hm]
  dsimp only
  cases m with
  | false => rfl
  | true =>
    rw [ht]
    dsimp only
    rcases hcond with hc | hc | hc
    · cases hc
    · have hbne : (t != "normal") = true := by simpa [bne_iff_ne] using hc
      rw [if_pos hbne]
      rfl
    · by_cases hty : t = "normal"
      · subst hty
        rw [if_neg (by simp)]
        rw [hp]
        dsimp only
        rw [hr]
        dsimp only
        rw [hw]
        dsimp only
        have a1 := asI16_le wg.width
        have a2 := asI16_le wg.height
        have a3 := asI16_le rg.width
        have a4 := asI16_le rg.height
        have hout : App.winOutside wg rg = true := by
          unfold App.winOutside
          simp only [Bool.or_eq_true, decide_eq_true_eq]
          omega
        rw [if_pos hout]
        rfl
      · have hbne : (t != "normal") = true := by simpa [bne_iff_ne] using hty
        rw [if_pos hbne]
        rfl

/-- Witness for C5: a window at x = −50 of width 40 (entirely left of a
1920×1080 root) is ignored and the empty registry stays empty. -/
theorem App.map_win_ignores_filtered_witness :
    App.map_win mapEnvOut [] = (Except.ok (), []) :=
  App.map_win_ignores_filtered mapEnvOut [] true "normal" 7 ⟨0, 0, 1920, 1080⟩
    ⟨-50, 10, 40, 40⟩ rfl rfl rfl rfl rfl
    (Or.inr (Or.inr (Or.inl (by decide))))

theorem App.render_win_fresh_ok (env : RefreshEnv) (wid dmg : Nat)
    (h : env.allOk) :
    ∃ w' tr, App.render_win env ⟨wid, dmg, none, ⟨none⟩⟩ = (Except.ok (), w', tr) := by
  obtain ⟨⟨g, hg⟩, ⟨v, hv⟩, h3, h4, h5, h6, h7, h8⟩ := h
  obtain ⟨f1, f2, f3, f4, f5, f6, f7, f8, f9⟩ := env
  dsimp only at hg hv h3 h4 h5 h6 h7 h8
  subst hg hv h3 h4 h5 h6 h7 h8
  exact ⟨_, _, rfl⟩

theorem Registry.lookup_insert_self (r : Registry) (wid : Nat) (w : Window)
    (h : Registry.lookup r wid = none) :
    Registry.lookup (Registry.insert r wid w) wid = some w := by
  induction r with
  | nil => simp [Registry.insert, Registry.lookup]
  | cons p rest ih =>
    obtain ⟨k, v⟩ := p
    simp only [Registry.insert, List.cons_append] at *
    simp only [Registry.lookup] at h ⊢
    by_cases hk : k = wid
    · rw [if_pos hk] at h; exact absurd h (by simp)
    · rw [if_neg hk] at h
      rw [if_neg hk]
      simpa [Registry.insert] using ih h

theorem Registry.lookup_append_left (r l : Registry) (k : Nat)
    (h : (Registry.lookup r k).isSome = true) :
    Registry.lookup (r ++ l) k = Registry.lookup r k := by
  induction r with
  | nil => simp [Registry.lookup] at h
  | cons p rest ih =>
    obtain ⟨k', v⟩ := p
    simp only [List.cons_append, Registry.lookup] at h ⊢
    by_cases hk : k' = k
    · rw [if_pos hk, if_pos hk]
    · rw [if_neg hk] at h
      rw [if_neg hk, if_neg hk]
      exact ih h

theorem App.map_win_admits_inserts (env : MapEnv) (reg : Registry) (wid : Nat)
    (ha : env.admits wid) (hre : env.renderEnv.allOk)
    (hnew : Registry.lookup reg wid = none) :
    ∃ w1, App.map_win env reg = (Except.ok (), Registry.insert reg wid w1) := by
  obtain ⟨h1, h2, h3, ⟨rg, wg, h4, h5, h6⟩, ⟨s, h7⟩, h8, h9⟩ := ha
  obtain ⟨w1, tr, hrw⟩ := App.render_win_fresh_ok env.renderEnv wid env.damageId hre
  refine ⟨w1, ?_⟩
  unfold App.map_win
  simp only [h1, h2, h3, h4, h5, h6, h7, h8, h9, hnew, hrw]
  simp

theorem App.map_win_dup (env : MapEnv) (reg : Registry) (wid : Nat) (w : Window)
    (ha : env.admits wid) (hx : Registry.lookup reg wid = some w) :
    App.map_win env reg = (Except.error Err.panicDuplicateWindow, reg) := by
  obtain ⟨h1, h2, h3, ⟨rg, wg, h4, h5, h6⟩, ⟨s, h7⟩, h8, h9⟩ := ha
  unfold App.map_win
  simp only [h1, h2, h3, h4, h5, h6, h7, h8, h9, hx]
  simp

/-- C6: mapping the same window id twice (with the compositor admitting
the window both times and every call succeeding) inserts it on the first
attempt and fails on the second — the `try_insert(..).unwrap()` panic,
modelled as the `panicDuplicateWindow` error — leaving the registry
exactly as it was after the first attempt. -/
theorem App.map_win_duplicate_window (env₁ env₂ : MapEnv) (reg₀ : Registry) (wid : Nat)
    (h₁ : env₁.admits wid) (hre : env₁.renderEnv.allOk) (h₂ : env₂.admits wid)
    (hnew : Registry.lookup reg₀ wid = none) :
    ∃ reg₁, App.map_win env₁ reg₀ = (Except.ok (), reg₁) ∧
      App.map_win env₂ reg₁ = (Except.error Err.panicDuplicateWindow, reg₁) := by
  obtain ⟨w1, hmw⟩ := App.map_win_admits_inserts env₁ reg₀ wid h₁ hre hnew
  exact ⟨_, hmw, App.map_win_dup env₂ _ wid w1 h₂
    (Registry.lookup_insert_self reg₀ wid w1 hnew)⟩

/-- Witness for C6: mapping window 7 twice under `mapEnvA` starting from
the empty registry. -/
theorem App.map_win_duplicate_window_witness :
    ∃ reg₁, App.map_win mapEnvA [] = (Except.ok (), reg₁) ∧
      App.map_win mapEnvA reg₁ = (Except.error Err.panicDuplicateWindow, reg₁) :=
  App.map_win_duplicate_window mapEnvA mapEnvA [] 7
    ⟨rfl, rfl, rfl, ⟨⟨0, 0, 1920, 1080⟩, ⟨100, 100, 300, 200⟩, rfl, rfl, by decide⟩,
     ⟨"title", rfl⟩, rfl, rfl⟩
    ⟨⟨⟨0, 0, 300, 200⟩, rfl⟩, ⟨1, rfl⟩, rfl, rfl, rfl, rfl, rfl, rfl⟩
    ⟨rfl, rfl, rfl, ⟨⟨0, 0, 1920, 1080⟩, ⟨100, 100, 300, 200⟩, rfl, rfl, by decide⟩,
     ⟨"title", rfl⟩, rfl, rfl⟩
    rfl

theorem App.map_win_registry_shape (env : MapEnv) (reg : Registry) :
    (App.map_win env reg).2 = reg ∨
    ∃ wid w, (App.map_win env reg).2 = Registry.insert reg wid w := by
  unfold App.map_win
  repeat' split
  all_goals dsimp only
  all_goals repeat' split
  all_goals first
    | exact Or.inl rfl
    | exact Or.inr ⟨_, _, rfl⟩

theorem App.map_win_keeps (env : MapEnv) (reg : Registry) (k : Nat)
    (h : (Registry.lookup reg k).isSome = true) :
    (Registry.lookup (App.map_win env reg).2 k).isSome = true := by
  rcases App.map_win_registry_shape env reg with hs | ⟨wid, w, hs⟩
  · rw [hs]; exact h
  · rw [hs]
    unfold Registry.insert
    rw [Registry.lookup_append_left reg _ k h]
    exact h

/-- C7 counterexample: with a failing first candidate (`mapEnvBad`, whose
compositor IPC errors on the metadata fetch) and a viable second
candidate (`mapEnvA`, which alone maps window 7 successfully), the
enumeration returns the error with an empty registry — the error
propagates out of the loop and the subsequent candidate is never
attempted, contrary to the claim that enumeration continues. -/
theorem App.setup_initial_windows_propagates_cex :
    (App.setup_initial_windows [mapEnvBad, mapEnvA] []).1 = Except.error Err.registry ∧
    (App.setup_initial_windows [mapEnvBad, mapEnvA] []).2 = [] ∧
    (App.setup_initial_windows [mapEnvA] []).1 = Except.ok () ∧
    (Registry.lookup (App.setup_initial_windows [mapEnvA] []).2 7).isSome = true :=
  ⟨rfl, rfl, rfl, rfl⟩

/-- C7 (amended): an error while mapping one candidate window propagates
out of the enumeration loop — `setup_initial_windows` stops with that
error and does not attempt subsequent candidates — while windows tracked
before the failing candidate remain in the registry (`map_win` never
removes entries). -/
theorem App.setup_initial_windows_error_propagation (c : MapEnv)
    (rest : List MapEnv) (reg reg' : Registry) (e : Err)
    (h : App.map_win c reg = (Except.error e, reg')) :
    App.setup_initial_windows (c :: rest) reg = (Except.error e, reg') ∧
    ∀ k, (Registry.lookup reg k).isSome = true →
      (Registry.lookup reg' k).isSome = true := by
  constructor
  · unfold App.setup_initial_windows
    rw [h]
  · intro k hk
    have hkeep := App.map_win_keeps c reg k hk
    rw [h] at hkeep
    exact hkeep

/-- Witness for the amended C7: the failing candidate propagates its
error while the already-tracked window 5 stays in the registry. -/
theorem App.setup_initial_windows_error_propagation_witness :
    App.setup_initial_windows [mapEnvBad] [(5, win5)] =
      (Except.error Err.registry, [(5, win5)]) ∧
    (Registry.lookup [(5, win5)] 5).isSome = true :=
  ⟨(App.setup_initial_windows_error_propagation mapEnvBad [] [(5, win5)]
      [(5, win5)] Err.registry rfl).1,
   (App.setup_initial_windows_error_propagation mapEnvBad [] [(5, win5)]
      [(5, win5)] Err.registry rfl).2 5 rfl⟩

/-- C8: the event loop handles delivered events one at a time in delivery
order (the handled events form the prefix of the schedule, in order), and
for each `DamageNotify` it handles, the damage-subtract acknowledgment on
that window's damage handle is the first external action of the
iteration, preceding every action of that window's render pass (the rest
of the trace is exactly the render pass's trace when the subtract
succeeded). -/
theorem App.run_events_ordered (evs : List (XEvent × LoopEnv)) (reg : Registry) :
    ((App.run_events evs reg).2.map Prod.fst
      = (evs.map Prod.fst).take ((App.run_events evs reg).2.length)) ∧
    (∀ env r d res tr, App.handle_event env r (XEvent.damageNotify d) = (res, tr) →
      tr ≠ [] →
      ∃ w, Registry.lookup r d = some w ∧
        (env.subtractOk = false → tr = [Event.damageSubtract w.damage]) ∧
        (env.subtractOk = true →
          tr = Event.damageSubtract w.damage ::
            (App.render_win env.renderEnv w).2.2)) := by
  constructor
  · induction evs generalizing reg with
    | nil => simp [App.run_events]
    | cons p rest ih =>
      obtain ⟨ev, env⟩ := p
      unfold App.run_events
      cases hh : App.handle_event env reg ev with
      | mk res tr =>
        cases res with
        | ok reg' =>
          dsimp only
          cases hrr : App.run_events rest reg' with
          | mk res2 trs =>
            dsimp only
            have hih := ih reg'
            rw [hrr] at hih
            dsimp only at hih
            simp only [List.map_cons, List.length_cons, List.take_succ_cons]
            rw [hih]
        | error e =>
          dsimp only
          simp
  · intro env r d res tr h htr
    unfold App.handle_event at h
    dsimp only at h
    cases hl : Registry.lookup r d with
    | none =>
      rw [hl] at h
      dsimp only at h
      injection h with h1 h2
      exact absurd h2.symm htr
    | some w =>
      rw [hl] at h
      dsimp only at h
      cases hs : env.subtractOk with
      | false =>
        rw [if_neg (by rw [hs]; exact Bool.false_ne_true)] at h
        injection h with h1 h2
        refine ⟨w, rfl, ?_, ?_⟩
        · intro _; exact h2.symm
        · intro hc; simp at hc
      | true =>
        rw [if_pos hs] at h
        cases hrw : App.render_win env.renderEnv w with
        | mk rres rrest =>
          obtain ⟨w', tr'⟩ := rrest
          rw [hrw] at h
          dsimp only at h
          cases rres with
          | ok u =>
            injection h with h1 h2
            refine ⟨w, rfl, ?_, ?_⟩
            · intro hc; simp at hc
            · intro _; rw [hrw]; exact h2.symm
          | error e =>
            injection h with h1 h2
            refine ⟨w, rfl, ?_, ?_⟩
            · intro hc; simp at hc
            · intro _; rw [hrw]; exact h2.symm

/-- Witness for C8: a single damage event for the tracked window 5. -/
theorem App.run_events_ordered_witness :
    (((App.run_events [(XEvent.damageNotify 5, loopEnvA)] [(5, win5)]).2.map Prod.fst)
      = (([(XEvent.damageNotify 5, loopEnvA)].map Prod.fst).take
          ((App.run_events [(XEvent.damageNotify 5, loopEnvA)] [(5, win5)]).2.length))) ∧
    (∃ w, Registry.lookup [(5, win5)] 5 = some w ∧
      (loopEnvA.subtractOk = false →
        (App.handle_event loopEnvA [(5, win5)] (XEvent.damageNotify 5)).2
          = [Event.damageSubtract w.damage]) ∧
      (loopEnvA.subtractOk = true →
        (App.handle_event loopEnvA [(5, win5)] (XEvent.damageNotify 5)).2
          = Event.damageSubtract w.damage ::
            (App.render_win loopEnvA.renderEnv w).2.2)) :=
  ⟨(App.run_events_ordered [(XEvent.damageNotify 5, loopEnvA)] [(5, win5)]).1,
   (App.run_events_ordered [] []).2 loopEnvA [(5, win5)] 5
     ((App.handle_event loopEnvA [(5, win5)] (XEvent.damageNotify 5)).1)
     ((App.handle_event loopEnvA [(5, win5)] (XEvent.damageNotify 5)).2)
     rfl (by decide)⟩

/-- C9: a `DamageNotify` whose window handle is not in the registry fails
loudly — the `get_mut(..).unwrap()` panic, modelled as the
`panicUntrackedWindow` error — and terminates the loop: the event is not
silently dropped and no later event is processed. -/
theorem App.run_events_untracked_fails (env : LoopEnv) (reg : Registry)
    (d : Nat) (rest : List (XEvent × LoopEnv))
    (h : Registry.lookup reg d = none) :
    App.run_events ((XEvent.damageNotify d, env) :: rest) reg =
      (Except.error Err.panicUntrackedWindow, [(XEvent.damageNotify d, [])]) := by
  unfold App.run_events App.handle_event
  dsimp only
  rw [h]

/-- Witness for C9: a damage event for the untracked handle 99 on the
empty registry, followed by another event that is never reached. -/
theorem App.run_events_untracked_fails_witness :
    App.run_events [(XEvent.damageNotify 99, loopEnvA), (XEvent.other, loopEnvA)] [] =
      (Except.error Err.panicUntrackedWindow, [(XEvent.damageNotify 99, [])]) :=
  App.run_events_untracked_fails loopEnvA [] 99 [(XEvent.other, loopEnvA)] rfl
